import Mathlib

/-!
Verification of the login/credential subsystem of airbitz-core
(src/src/ABC_Login.c) against its natural-language specification.

The C code is shallowly embedded: byte strings become `List Nat`, the
`tABC_CC` result-code enum becomes an inductive `CC`, authenticated
encryption becomes a symbolic envelope type, and each orchestrator
function becomes a Lean function whose control flow mirrors the source
line by line (source-line references are given in the doc comments).
-/

namespace Airbitz

/-- Byte strings (`tABC_U08Buf` contents). -/
abbrev Bytes := List Nat

/-- The result-code taxonomy `tABC_CC` (ABC.h), restricted to the codes
used by ABC_Login.c. -/
inductive CC where
  | Ok
  | Error
  | BadPassword
  | AccountAlreadyExists
  | AccountDoesNotExist
  | NoRecoveryQuestions
  | ParseError
  | JSONError
  | DecryptFailure
  | ServerError
  | URLError
  deriving DecidableEq, Repr

/-- Scrypt parameter record `tABC_CryptoSNRP` ({salt, n, r, p}). -/
structure SNRP where
  salt : Bytes
  n : Nat
  r : Nat
  p : Nat
  deriving DecidableEq, Repr

/-- Model of `ABC_CryptoScryptSNRP`: a deterministic key-derivation
function of the input bytes and the SNRP parameters.  The concrete shape
is irrelevant to the claims; it only matters that it is a function of
`(input, snrp)` and that distinct inputs give distinct outputs for a
fixed SNRP (guaranteed here by the length tag). -/
def scrypt (input : Bytes) (snrp : SNRP) : Bytes :=
  snrp.salt ++ [snrp.n, snrp.r, snrp.p, snrp.salt.length, input.length] ++ input

/-- Model of `ABC_CryptoCreateSNRPForServer`: the globally fixed SNRP1
parameter set, identical across devices and accounts. -/
def snrpForServer : SNRP := ⟨[98, 50, 53, 51], 16384, 1, 1⟩

/-- A JSON encryption envelope as consumed by
`ABC_CryptoDecryptJSONObject`: either a well-formed authenticated
envelope (recording the key it was sealed under and its plaintext), or a
malformed document whose decryption fails with the given code. -/
inductive EnvJ where
  | enc (key : Bytes) (plain : Bytes)
  | malformed (c : CC)
  deriving DecidableEq, Repr

/-- Model of `ABC_CryptoEncryptJSONObject` (AES256 branch). -/
def cryptoEncrypt (plain key : Bytes) : EnvJ := .enc key plain

/-- Model of `ABC_CryptoDecryptJSONObject`: succeeds iff the envelope is
well formed and sealed under the supplied key; a MAC mismatch (wrong
key) yields `DecryptFailure`; a malformed document yields its own
error code. -/
def cryptoDecrypt (e : EnvJ) (key : Bytes) : Except CC Bytes :=
  match e with
  | .enc k m => if k = key then .ok m else .error CC.DecryptFailure
  | .malformed c => .error c

deriving instance DecidableEq for Except

/-- UTF-8 bytes of an ASCII string (used for concrete scenarios). -/
def strBytes (s : String) : Bytes := s.data.map Char.toNat

/-- CarePackage.json contents: `{ERQ?, SNRP2, SNRP3, SNRP4}`. -/
structure CarePackage where
  ERQ : Option EnvJ
  snrp2 : SNRP
  snrp3 : SNRP
  snrp4 : SNRP
  deriving DecidableEq, Repr

/-- LoginPackage.json contents: `{EMK, ESyncKey, ELP2?, ELRA3?}` (the
on-disk field name of ESyncKey is "SyncKey"). -/
structure LoginPackage where
  EMK : EnvJ
  ESyncKey : EnvJ
  ELP2 : Option EnvJ
  ELRA3 : Option EnvJ
  deriving DecidableEq, Repr

/-- The on-disk state of one local account slot, together with the
username it belongs to (`L` = username bytes). -/
structure Account where
  L : Bytes
  carePkg : CarePackage
  loginPkg : LoginPackage
  deriving DecidableEq, Repr

/-- The in-memory `tAccountKeys` cache entry, as populated by
`ABC_LoginCacheKeys`.  Optional fields are `NULL`-able buffers in the
source. -/
structure CacheEntry where
  L : Bytes
  password : Option Bytes
  MKc : Option Bytes
  LP2c : Option Bytes
  LRA3c : Option Bytes
  syncKey : Option Bytes
  L1c : Bytes
  L4c : Bytes
  deriving DecidableEq, Repr

/-- Embedding of `ABC_LoginCacheKeys` (ABC_Login.c lines 1456-1650) for
an account that has a local slot, starting from an empty cache.  Steps,
in source order:
  * SNRPs come from the CarePackage, `L1 = scrypt(L, SNRP1)`,
    `L4 = scrypt(L, SNRP4)` (lines 1497-1512);
  * `ESyncKey` is decrypted with `L4`; a `DecryptFailure` is turned into
    `BadPassword` ("Could not decrypt RepoAcctKey - bad L4",
    lines 1536-1549), any other decrypt error propagates; the plaintext
    gets a NUL terminator appended (lines 1551-1554);
  * if a password was supplied: `LP = L ++ P`,
    `LP2 = scrypt(LP, SNRP2)`, `EMK` is decrypted with `LP2`, a
    `DecryptFailure` becoming `BadPassword` (lines 1562-1592); if
    `ELRA3` is present it is decrypted with `LP2`, errors propagating
    raw (lines 1594-1597). -/
def cacheKeys (acct : Account) (pw : Option Bytes) : Except CC CacheEntry :=
  let l1 := scrypt acct.L snrpForServer
  let l4 := scrypt acct.L acct.carePkg.snrp4
  match cryptoDecrypt acct.loginPkg.ESyncKey l4 with
  | .error CC.DecryptFailure => .error CC.BadPassword
  | .error c => .error c
  | .ok repoJson =>
    let syncKey := repoJson ++ [0]
    match pw with
    | none =>
        .ok ⟨acct.L, none, none, none, none, some syncKey, l1, l4⟩
    | some p =>
        let lp := acct.L ++ p
        let lp2 := scrypt lp acct.carePkg.snrp2
        match cryptoDecrypt acct.loginPkg.EMK lp2 with
        | .error CC.DecryptFailure => .error CC.BadPassword
        | .error c => .error c
        | .ok mk =>
          match acct.loginPkg.ELRA3 with
          | none =>
              .ok ⟨acct.L, some p, some mk, some lp2, none, some syncKey, l1, l4⟩
          | some elra3 =>
            match cryptoDecrypt elra3 lp2 with
            | .error c => .error c
            | .ok lra3 =>
                .ok ⟨acct.L, some p, some mk, some lp2, some lra3, some syncKey, l1, l4⟩

/-- Embedding of the ESyncKey decryption inside `ABC_LoginRepoSetup`
(ABC_Login.c lines 519-530): a `DecryptFailure` becomes `BadPassword`
("Could not decrypt RepoAcctKey - bad password"), any other error
propagates. -/
def repoSetupDecryptSyncKey (esync : EnvJ) (l4 : Bytes) : Except CC Bytes :=
  match cryptoDecrypt esync l4 with
  | .error CC.DecryptFailure => .error CC.BadPassword
  | .error c => .error c
  | .ok b => .ok b

/-- Embedding of the local-slot branch of `ABC_LoginSignIn`
(ABC_Login.c lines 158-192): `ABC_LoginCacheKeys(u, NULL)` loads the
slot (failing there fails the sign-in); the fresh LoginPackage fetch
result `fetchRes` is terminal only when it is `BadPassword`, a fetched
package replacing the one on disk and any other fetch error being
ignored; then `ABC_LoginCheckCredentials` runs `cacheKeys` with the
password against the (possibly updated) slot. -/
def signInLocal (acct : Account) (pw : Bytes)
    (fetchRes : Except CC LoginPackage) : Except CC CacheEntry :=
  match cacheKeys acct none with
  | .error c => .error c
  | .ok _ =>
    match fetchRes with
    | .error CC.BadPassword => .error CC.BadPassword
    | .error _ => cacheKeys acct (some pw)
    | .ok pkg => cacheKeys { acct with loginPkg := pkg } (some pw)

/-- The `tABC_LoginKey` enum selecting a key in `ABC_LoginGetKey`. -/
inductive LoginKeyT where
  | keyL1
  | keyL4
  | keyLP1
  | keyLP2
  | keyMK
  | keyRepoAccountKey
  | keyRQ
  deriving DecidableEq, Repr

/-- Embedding of the switch in `ABC_LoginGetKey` (ABC_Login.c
lines 1672-1752), applied to a cache entry `e` (as produced by
`ABC_LoginCacheKeys`) for the slot `acct`.  Note the source handles
`ABC_LoginKey_MK` and `ABC_LoginKey_LP2` by the same fall-through case
(lines 1707-1712), returning the cached `MK` buffer for both. -/
def loginGetKey (acct : Account) (e : CacheEntry) (t : LoginKeyT) :
    Except CC Bytes :=
  match t with
  | .keyL1 => .ok e.L1c
  | .keyL4 => .ok e.L4c
  | .keyLP1 =>
      match e.password with
      | some p => .ok (scrypt (e.L ++ p) snrpForServer)
      | none => .ok (scrypt e.L snrpForServer)
  | .keyMK | .keyLP2 =>
      match e.MKc with
      | some mk => .ok mk
      | none => .error CC.Error
  | .keyRepoAccountKey => .ok (e.syncKey.getD [])
  | .keyRQ =>
      match acct.carePkg.ERQ with
      | some erq => cryptoDecrypt erq e.L4c
      | none => .error CC.NoRecoveryQuestions

/-- Embedding of the local-slot, no-cached-LRA branch of
`ABC_LoginCheckRecoveryAnswers` (ABC_Login.c lines 1846-1891):
`LRA = L ++ answers`, `LRA3 = scrypt(LRA, SNRP3)`, then the stored
`ELP2` envelope is decrypted with `LRA3`; success sets `*pbValid = true`
with an `Ok` result, a `DecryptFailure` leaves `*pbValid = false` while
resetting the error to `Ok`, and any other decryption error propagates
as the call's result code. -/
def checkRecoveryAnswersLocal (L : Bytes) (snrp3 : SNRP) (elp2 : EnvJ)
    (answers : Bytes) : Except CC Bool :=
  let lra := L ++ answers
  let lra3 := scrypt lra snrp3
  match cryptoDecrypt elp2 lra3 with
  | .ok _ => .ok true
  | .error CC.DecryptFailure => .ok false
  | .error c => .error c

/-- A concrete slot whose `ESyncKey` envelope is sealed under a key that
is not `L4 = scrypt(L, SNRP4)`: on-disk corruption (MAC mismatch). -/
def acctCorruptSync : Account :=
  { L := strBytes "alice"
  , carePkg := ⟨none, ⟨[2], 2, 1, 1⟩, ⟨[3], 2, 1, 1⟩, ⟨[4], 2, 1, 1⟩⟩
  , loginPkg :=
    { EMK := .enc (scrypt (strBytes "alice" ++ strBytes "hunter2") ⟨[2], 2, 1, 1⟩) [9, 9]
    , ESyncKey := .enc [1] [7]
    , ELP2 := none
    , ELRA3 := none } }

/-- C1 counterexample: sign-in on a slot whose `ESyncKey` does not
decrypt under `L4` returns `BadPassword`, which is not the internal
`Error` the claim promises. -/
theorem c1_counterexample_corrupt_esynckey_gives_bad_password :
    signInLocal acctCorruptSync (strBytes "hunter2") (.error CC.ServerError)
      = .error CC.BadPassword ∧
    (Except.error CC.BadPassword : Except CC CacheEntry) ≠ .error CC.Error := by
  constructor
  · decide
  · decide

/-- C1 (amended): whenever the on-disk `ESyncKey` envelope fails to
decrypt under the username-derived key `L4` with a MAC mismatch
(`DecryptFailure`), `signIn` returns `BadPassword` — the source maps
`DecryptFailure` to `BadPassword` for username-derived (L4) keys exactly
as for password-derived ones, both in `ABC_LoginCacheKeys` and in
`ABC_LoginRepoSetup`. -/
theorem c1_amended_esynckey_decrypt_failure_is_bad_password
    (acct : Account) (pw : Bytes) (fetchRes : Except CC LoginPackage)
    (h : cryptoDecrypt acct.loginPkg.ESyncKey (scrypt acct.L acct.carePkg.snrp4)
        = .error CC.DecryptFailure) :
    signInLocal acct pw fetchRes = .error CC.BadPassword ∧
    (∀ esync l4, cryptoDecrypt esync l4 = .error CC.DecryptFailure →
      repoSetupDecryptSyncKey esync l4 = .error CC.BadPassword) := by
  constructor
  · simp only [signInLocal, cacheKeys, h]
  · intro esync l4 h2
    simp only [repoSetupDecryptSyncKey, h2]

/-- C1 amended-theorem witness at a concrete corrupt slot. -/
theorem c1_amended_witness :
    signInLocal acctCorruptSync (strBytes "pw") (.error CC.Error)
      = .error CC.BadPassword ∧
    repoSetupDecryptSyncKey (.enc [1] [7]) [2] = .error CC.BadPassword := by
  have h := c1_amended_esynckey_decrypt_failure_is_bad_password
    acctCorruptSync (strBytes "pw") (.error CC.Error) (by decide)
  exact ⟨h.1, h.2 (.enc [1] [7]) [2] (by decide)⟩

/-- C6: with a local slot and no cached LRA, `checkRecoveryAnswers`
derives `LRA3 = scrypt(L ++ answers, SNRP3)` and decrypts the stored
`ELP2` with it: a successful decryption yields `valid = true`, a MAC
mismatch yields `valid = false` with result `Ok`, and any other
decryption error propagates as the call's error. -/
theorem c6_check_recovery_answers_branches
    (L answers : Bytes) (snrp3 : SNRP) :
    (∀ lp2, checkRecoveryAnswersLocal L snrp3
        (.enc (scrypt (L ++ answers) snrp3) lp2) answers = .ok true) ∧
    (∀ k m, k ≠ scrypt (L ++ answers) snrp3 →
      checkRecoveryAnswersLocal L snrp3 (.enc k m) answers = .ok false) ∧
    (∀ c, c ≠ CC.DecryptFailure →
      checkRecoveryAnswersLocal L snrp3 (.malformed c) answers = .error c) := by
  refine ⟨fun lp2 => ?_, fun k m hk => ?_, fun c hc => ?_⟩
  · simp [checkRecoveryAnswersLocal, cryptoDecrypt]
  · simp [checkRecoveryAnswersLocal, cryptoDecrypt, hk]
  · cases c <;> simp_all [checkRecoveryAnswersLocal, cryptoDecrypt]

/-- C6 witness: concrete right answers, wrong answers, and a malformed
envelope. -/
theorem c6_witness :
    checkRecoveryAnswersLocal (strBytes "alice") ⟨[3], 2, 1, 1⟩
      (.enc (scrypt (strBytes "alice" ++ strBytes "A1\nA2") ⟨[3], 2, 1, 1⟩) [5])
      (strBytes "A1\nA2") = .ok true ∧
    checkRecoveryAnswersLocal (strBytes "alice") ⟨[3], 2, 1, 1⟩
      (.enc [0] [5]) (strBytes "A1\nA2") = .ok false ∧
    checkRecoveryAnswersLocal (strBytes "alice") ⟨[3], 2, 1, 1⟩
      (.malformed CC.JSONError) (strBytes "A1\nA2") = .error CC.JSONError := by
  have h := c6_check_recovery_answers_branches (strBytes "alice")
    (strBytes "A1\nA2") ⟨[3], 2, 1, 1⟩
  exact ⟨h.1 [5], h.2.1 [0] [5] (by decide), h.2.2 CC.JSONError (by decide)⟩

/-- C7: `ABC_LoginGetKey` answers the same cached `MK` buffer for the
key types `ABC_LoginKey_MK` and `ABC_LoginKey_LP2`: whenever `MK` is
present in the cache entry, asking for `LP2` yields `MK` — regardless of
the (distinct) `LP2` value actually held by the entry. -/
theorem c7_get_key_lp2_returns_mk
    (acct : Account) (e : CacheEntry) (mk : Bytes) (h : e.MKc = some mk) :
    loginGetKey acct e .keyLP2 = .ok mk ∧
    loginGetKey acct e .keyMK = .ok mk := by
  refine ⟨?_, ?_⟩ <;> simp only [loginGetKey, h]

/-- C7 witness: a concrete entry whose cached `LP2` differs from its
`MK`, and still `getKey LP2` answers `MK`. -/
theorem c7_witness :
    loginGetKey acctCorruptSync
      ⟨strBytes "alice", some (strBytes "hunter2"), some [9, 9], some [4, 4],
        none, some [8, 0], [1], [2]⟩ .keyLP2 = .ok [9, 9] ∧
    some [9, 9] ≠ some ([4, 4] : Bytes) := by
  have h := c7_get_key_lp2_returns_mk acctCorruptSync
    ⟨strBytes "alice", some (strBytes "hunter2"), some [9, 9], some [4, 4],
      none, some [8, 0], [1], [2]⟩ [9, 9] rfl
  exact ⟨h.1, by decide⟩

/-- The arguments `ABC_LoginCreate` passes to `ABC_LoginServerCreate`
(ABC_Login.c lines 315-317). -/
structure ServerCreateArgs where
  L1 : Bytes
  LP1 : Bytes
  carePkg : CarePackage
  loginPkg : LoginPackage
  syncKeyHex : Bytes
  deriving DecidableEq, Repr

/-- Embedding of the key-derivation prefix of `ABC_LoginCreate`
(ABC_Login.c lines 241-317), up to the server-create call.  In source
order: `L := username` bytes, `L1 := scrypt(L, SNRP1)`, `P := password`
bytes, `LP := L ++ P`, `LP1 := scrypt(LP, SNRP1)`, the CarePackage
without ERQ, `L4 := scrypt(L, SNRP4)`, `LP2 := scrypt(LP, SNRP2)`, and
the LoginPackage `{EMK = Encrypt(MK, LP2),
ESyncKey = Encrypt(syncKeyHex ++ NUL, L4)}` with no ELP2/ELRA3.
`mk` and `syncKeyHex` stand for the freshly generated random master key
and hex-encoded repo key. -/
def loginCreateServerArgs (u p mk syncKeyHex : Bytes)
    (snrp2 snrp3 snrp4 : SNRP) : ServerCreateArgs :=
  let L := u
  let L1 := scrypt L snrpForServer
  let P := p
  let LP := L ++ P
  let LP1 := scrypt LP snrpForServer
  let carePkg : CarePackage := ⟨none, snrp2, snrp3, snrp4⟩
  let L4 := scrypt L snrp4
  let LP2 := scrypt LP snrp2
  let loginPkg : LoginPackage :=
    ⟨cryptoEncrypt mk LP2, cryptoEncrypt (syncKeyHex ++ [0]) L4, none, none⟩
  ⟨L1, LP1, carePkg, loginPkg, syncKeyHex⟩

/-- C5: the server-auth tokens sent at create are
`L1 = scrypt(u, SNRP1)` and `LP1 = scrypt(u ++ p, SNRP1)` — the scrypt
of the concatenated username and password bytes under the fixed SNRP1 —
and concretely for alice/hunter2 the LP1 input is the byte string
"alicehunter2". -/
theorem c5_create_server_auth_tokens (u p mk sk : Bytes)
    (snrp2 snrp3 snrp4 : SNRP) :
    (loginCreateServerArgs u p mk sk snrp2 snrp3 snrp4).L1
        = scrypt u snrpForServer ∧
    (loginCreateServerArgs u p mk sk snrp2 snrp3 snrp4).LP1
        = scrypt (u ++ p) snrpForServer ∧
    (loginCreateServerArgs (strBytes "alice") (strBytes "hunter2") mk sk
        snrp2 snrp3 snrp4).LP1
        = scrypt (strBytes "alicehunter2") snrpForServer := by
  refine ⟨rfl, rfl, ?_⟩
  have h : strBytes "alice" ++ strBytes "hunter2" = strBytes "alicehunter2" := by
    decide
  show scrypt (strBytes "alice" ++ strBytes "hunter2") snrpForServer
      = scrypt (strBytes "alicehunter2") snrpForServer
  rw [h]

/-- The externally visible effects of `ABC_LoginCreate`, in the order
the source performs them (ABC_Login.c lines 289, 296, 315, 321, 325,
327, 334, 337, 340, 351, 352, 354). -/
inductive CreateStep where
  | createDir
  | writeNameFile
  | serverCreate
  | writeCarePackage
  | writeLoginPackage
  | createSyncDir
  | accountCreateFiles
  | updateQuestionChoices
  | updateInfo
  | syncMakeRepo
  | syncRepo
  | serverActivate
  deriving DecidableEq, Repr

/-- The effect order of `ABC_LoginCreate`. -/
def createSteps : List CreateStep :=
  [.createDir, .writeNameFile, .serverCreate, .writeCarePackage,
   .writeLoginPackage, .createSyncDir, .accountCreateFiles,
   .updateQuestionChoices, .updateInfo, .syncMakeRepo, .syncRepo,
   .serverActivate]

/-- Durable state: the local slot directory and its files, plus the
remote account. -/
structure FsState where
  slotDir : Bool
  nameFile : Bool
  carePkgFile : Bool
  loginPkgFile : Bool
  syncDir : Bool
  serverAccount : Bool
  deriving DecidableEq, Repr

/-- The empty state before create runs. -/
def fs0 : FsState := ⟨false, false, false, false, false, false⟩

/-- The durable effect of each create step. -/
def applyStep (fs : FsState) : CreateStep → FsState
  | .createDir => { fs with slotDir := true }
  | .writeNameFile => { fs with nameFile := true }
  | .serverCreate => { fs with serverAccount := true }
  | .writeCarePackage => { fs with carePkgFile := true }
  | .writeLoginPackage => { fs with loginPkgFile := true }
  | .createSyncDir => { fs with syncDir := true }
  | _ => fs

/-- The durable state after the process crashes having completed
exactly the first `k` steps of `ABC_LoginCreate` (no cleanup runs on a
crash). -/
def fsAfterCrash (k : Nat) : FsState := (createSteps.take k).foldl applyStep fs0

/-- C3 counterexample: crash right after the `UserName.json` write
(step 2) leaves the slot directory and the name file durable while the
server account does not exist yet — the source creates the directory
(line 289) and writes the name file (line 296) before
`ABC_LoginServerCreate` (line 315). -/
theorem c3_counterexample_name_file_before_server_create :
    (fsAfterCrash 2).slotDir = true ∧
    (fsAfterCrash 2).nameFile = true ∧
    (fsAfterCrash 2).serverAccount = false ∧
    createSteps.indexOf CreateStep.writeNameFile
      < createSteps.indexOf CreateStep.serverCreate := by
  refine ⟨by decide, by decide, by decide, by decide⟩

/-- C3 (amended): only the two package files are written after
`server.create` succeeds; the slot directory and the `UserName.json`
name file are created before the server call (so a crash between the
name-file write and the server call does leave an orphan slot — only an
error return removes it). -/
theorem c3_amended_packages_after_server_create (k : Nat) :
    ((fsAfterCrash k).carePkgFile = true → (fsAfterCrash k).serverAccount = true) ∧
    ((fsAfterCrash k).loginPkgFile = true → (fsAfterCrash k).serverAccount = true) ∧
    createSteps.indexOf CreateStep.createDir
      < createSteps.indexOf CreateStep.serverCreate ∧
    createSteps.indexOf CreateStep.writeNameFile
      < createSteps.indexOf CreateStep.serverCreate := by
  rcases Nat.lt_or_ge k 12 with h | h
  · interval_cases k <;> exact ⟨by decide, by decide, by decide, by decide⟩
  · have ht : createSteps.take k = createSteps :=
      List.take_of_length_le (by simp [createSteps]; omega)
    unfold fsAfterCrash
    rw [ht]
    exact ⟨by decide, by decide, by decide, by decide⟩

/-- C3 amended-theorem witness: concrete crash points after the two
package writes (steps 4 and 5) have the server account present. -/
theorem c3_amended_witness :
    (fsAfterCrash 4).serverAccount = true ∧
    (fsAfterCrash 5).serverAccount = true := by
  exact ⟨(c3_amended_packages_after_server_create 4).1 (by decide),
         (c3_amended_packages_after_server_create 5).2.1 (by decide)⟩

/-- The cleanup in the `exit:` blocks of `ABC_LoginCreate`
(lines 357-360) and `ABC_LoginFetch` (lines 442-446):
`ABC_FileIODeleteRecursive(szAccountDir)` removes the slot directory
with everything in it. -/
def deleteSlotRec (fs : FsState) : FsState :=
  { fs with slotDir := false, nameFile := false, carePkgFile := false,
            loginPkgFile := false, syncDir := false }

/-- The `exit:` pattern shared by create and fetch: on a non-Ok result
code the slot directory is recursively removed, otherwise the state is
left as is. -/
def cleanupOnError (res : CC × FsState) : CC × FsState :=
  if res.1 = CC.Ok then res else (res.1, deleteSlotRec res.2)

/-- Run of `ABC_LoginCreate` in which step `i` (if any) fails with
code `e`: the steps before `i` have executed, the failing step has no
durable effect, and the `exit:` block applies the cleanup. -/
def createRun (failAt : Option (Nat × CC)) : CC × FsState :=
  cleanupOnError <|
    match failAt with
    | none => (CC.Ok, createSteps.foldl applyStep fs0)
    | some (i, e) =>
        if i < createSteps.length then (e, (createSteps.take i).foldl applyStep fs0)
        else (CC.Ok, createSteps.foldl applyStep fs0)

/-- The externally visible effects of `ABC_LoginFetch` (the sign-in
path used when no local slot exists), in source order (ABC_Login.c
lines 418, 421, then inside `ABC_LoginInitPackages` lines 478, 485,
489, 493, then lines 430, 433, 439, 440). -/
inductive FetchStep where
  | serverGetCarePackage
  | serverGetLoginPackage
  | createDir
  | writeNameFile
  | writeCarePackage
  | writeLoginPackage
  | cacheKeysStep
  | createSyncDir
  | syncMakeRepo
  | syncRepo
  deriving DecidableEq, Repr

/-- The effect order of `ABC_LoginFetch`. -/
def fetchSteps : List FetchStep :=
  [.serverGetCarePackage, .serverGetLoginPackage, .createDir,
   .writeNameFile, .writeCarePackage, .writeLoginPackage, .cacheKeysStep,
   .createSyncDir, .syncMakeRepo, .syncRepo]

/-- The durable effect of each fetch step. -/
def applyFetchStep (fs : FsState) : FetchStep → FsState
  | .createDir => { fs with slotDir := true }
  | .writeNameFile => { fs with nameFile := true }
  | .writeCarePackage => { fs with carePkgFile := true }
  | .writeLoginPackage => { fs with loginPkgFile := true }
  | .createSyncDir => { fs with syncDir := true }
  | _ => fs

/-- Run of `ABC_LoginFetch` in which step `i` (if any) fails with code
`e`, the `exit:` block removing the slot directory on failure. -/
def fetchRun (failAt : Option (Nat × CC)) : CC × FsState :=
  cleanupOnError <|
    match failAt with
    | none => (CC.Ok, fetchSteps.foldl applyFetchStep fs0)
    | some (i, e) =>
        if i < fetchSteps.length then (e, (fetchSteps.take i).foldl applyFetchStep fs0)
        else (CC.Ok, fetchSteps.foldl applyFetchStep fs0)

/-- No trace of a local slot remains. -/
def noSlotLeft (fs : FsState) : Prop :=
  fs.slotDir = false ∧ fs.nameFile = false ∧ fs.carePkgFile = false ∧
  fs.loginPkgFile = false ∧ fs.syncDir = false

/-- Cleanup removes every local trace whenever the result is not Ok. -/
theorem cleanupOnError_noSlotLeft (res : CC × FsState)
    (h : (cleanupOnError res).1 ≠ CC.Ok) :
    noSlotLeft (cleanupOnError res).2 := by
  by_cases hok : res.1 = CC.Ok
  · exact absurd (by simp [cleanupOnError, hok]) h
  · simp [cleanupOnError, hok, deleteSlotRec, noSlotLeft]

/-- C4: any failure during `ABC_LoginCreate` removes the newly
allocated slot directory before the error propagates, and any failure
during the server-fetching sign-in path (`ABC_LoginFetch`) removes the
partially created slot directory — no partial slot is left behind. -/
theorem c4_failure_removes_slot (failAt : Option (Nat × CC)) :
    ((createRun failAt).1 ≠ CC.Ok → noSlotLeft (createRun failAt).2) ∧
    ((fetchRun failAt).1 ≠ CC.Ok → noSlotLeft (fetchRun failAt).2) :=
  ⟨fun h => cleanupOnError_noSlotLeft _ h,
   fun h => cleanupOnError_noSlotLeft _ h⟩

/-- C4 witness: a server failure at the care-package write of create
(step 3) and at the login-package fetch of the fetch path (step 1)
leave no slot. -/
theorem c4_witness :
    (createRun (some (3, CC.ServerError))).1 ≠ CC.Ok ∧
    noSlotLeft (createRun (some (3, CC.ServerError))).2 ∧
    (fetchRun (some (1, CC.ServerError))).1 ≠ CC.Ok ∧
    noSlotLeft (fetchRun (some (1, CC.ServerError))).2 := by
  have h1 := (c4_failure_removes_slot (some (3, CC.ServerError))).1 (by decide)
  have h2 := (c4_failure_removes_slot (some (1, CC.ServerError))).2 (by decide)
  exact ⟨by decide, h1, by decide, h2⟩

/-- The `RQ` plaintext stored by `ABC_LoginSetRecovery` (ABC_Login.c
line 650): the questions string is copied with `strlen + 1` bytes, so
the terminating NUL is part of the plaintext. -/
def setRecoveryRQ (q : Bytes) : Bytes := q ++ [0]

/-- The `ERQ` envelope built by `ABC_LoginSetRecovery` (ABC_Login.c
lines 671-673): `ERQ = Encrypt(RQ, L4)` with AES256. -/
def setRecoveryERQ (q l4 : Bytes) : EnvJ := cryptoEncrypt (setRecoveryRQ q) l4

/-- Embedding of the question-recovery tail shared by
`ABC_LoginFetchRecoveryQuestions` (ABC_Login.c lines 1944-1956) and
`ABC_LoginGetRecoveryQuestions` (lines 2004-2010): decrypt `ERQ` with
`L4` and append one NUL byte to the result; with no `ERQ`, the result
is the one-byte empty C string. -/
def fetchRecoveryQuestionsBuf (erq : Option EnvJ) (l4 : Bytes) :
    Except CC Bytes :=
  match erq with
  | some e =>
    match cryptoDecrypt e l4 with
    | .ok rq => .ok (rq ++ [0])
    | .error c => .error c
  | none => .ok [0]

/-- The value of a returned `char *` read as a NUL-terminated C string:
the bytes up to and including the first NUL. -/
def cStringOf (bs : Bytes) : Bytes := bs.takeWhile (fun b => b ≠ 0) ++ [0]

/-- Bytes before an explicit NUL are kept whole by `takeWhile`. -/
theorem takeWhile_until_nul (q t : Bytes) (h : 0 ∉ q) :
    (q ++ 0 :: t).takeWhile (fun b => (b : Nat) ≠ 0) = q := by
  induction q with
  | nil => simp
  | cons a as ih =>
      simp only [List.mem_cons, not_or] at h
      have ha : a ≠ 0 := fun hh => h.1 hh.symm
      simpa [List.takeWhile_cons, ha] using ih h.2

/-- C9: the recovery-question round trip.  For a NUL-free questions
string `q`, `decrypt(ERQ, L4)` recovers exactly the stored plaintext
`q ++ NUL`, and the buffer returned by `fetchRecoveryQuestions`, read
as a C string, is exactly `q` followed by its terminating NUL byte. -/
theorem c9_recovery_questions_round_trip (q l4 : Bytes) (h : 0 ∉ q) :
    cryptoDecrypt (setRecoveryERQ q l4) l4 = .ok (q ++ [0]) ∧
    fetchRecoveryQuestionsBuf (some (setRecoveryERQ q l4)) l4
      = .ok (q ++ [0] ++ [0]) ∧
    cStringOf (q ++ [0] ++ [0]) = q ++ [0] := by
  refine ⟨?_, ?_, ?_⟩
  · simp [setRecoveryERQ, setRecoveryRQ, cryptoEncrypt, cryptoDecrypt]
  · simp [fetchRecoveryQuestionsBuf, setRecoveryERQ, setRecoveryRQ,
      cryptoEncrypt, cryptoDecrypt]
  · have : q ++ [0] ++ [0] = q ++ 0 :: [0] := by simp
    rw [cStringOf, this, takeWhile_until_nul q [0] h]

/-- C9 witness at the concrete questions "Q1\nQ2" of the spec
scenario. -/
theorem c9_witness :
    cryptoDecrypt (setRecoveryERQ (strBytes "Q1\nQ2") [4]) [4]
      = .ok (strBytes "Q1\nQ2" ++ [0]) ∧
    cStringOf (strBytes "Q1\nQ2" ++ [0] ++ [0]) = strBytes "Q1\nQ2" ++ [0] := by
  have h := c9_recovery_questions_round_trip (strBytes "Q1\nQ2") [4] (by decide)
  exact ⟨h.1, h.2.2⟩

/-- Modelled from the spec: `ABC_GeneralUpdateInfo` lives in
ABC_General.c, which is not under src/ (only its call sites in
ABC_Login.c are).  Per the spec, it is a best-effort info fetch whose
network errors are swallowed: an unreachable server still yields
`ABC_CC_Ok`. -/
def generalUpdateInfo (serverUp : Bool) : CC :=
  match (if serverUp then Except.ok [] else Except.error CC.ServerError :
      Except CC Bytes) with
  | .ok _ => CC.Ok
  | .error _ => CC.Ok

/-- Modelled from the spec: `ABC_GeneralUpdateQuestionChoices`
(ABC_General.c, not under src/), the best-effort question-catalog
fetch, likewise swallowing network errors. -/
def generalUpdateQuestionChoices (serverUp : Bool) : CC :=
  match (if serverUp then Except.ok [] else Except.error CC.ServerError :
      Except CC Bytes) with
  | .ok _ => CC.Ok
  | .error _ => CC.Ok

/-- The tail of `ABC_LoginSignIn` (ABC_Login.c line 192): the
update-info call runs under `ABC_CHECK_RET` after the core sign-in
result `core`. -/
def signInFinish (core : CC) (serverUp : Bool) : CC :=
  if core = CC.Ok then generalUpdateInfo serverUp else core

/-- The tail of `ABC_LoginCreate` (ABC_Login.c lines 337-340): both
best-effort calls run under `ABC_CHECK_RET` after the core create
result `core`. -/
def createFinish (core : CC) (serverUp : Bool) : CC :=
  if core = CC.Ok then
    match generalUpdateQuestionChoices serverUp with
    | CC.Ok => generalUpdateInfo serverUp
    | c => c
  else core

/-- C8: a network failure of the best-effort update-info calls does not
change the result of sign-in or create: the calls swallow network
errors internally, so the `ABC_CHECK_RET` at their call sites never
fires for a network failure. -/
theorem c8_update_info_errors_swallowed (core : CC) (up up' : Bool) :
    signInFinish core up = signInFinish core up' ∧
    createFinish core up = createFinish core up' ∧
    generalUpdateInfo false = CC.Ok ∧
    generalUpdateQuestionChoices false = CC.Ok := by
  cases up <;> cases up' <;> exact ⟨rfl, rfl, rfl, rfl⟩

/-- Embedding of `ABC_LoginChangePassword` (ABC_Login.c lines 730-873).
In source order:
  * `ABC_LoginCacheKeys(u, szPassword)` loads the slot (line 759);
  * with a password (lines 762-776): the cached `LP2`, `LRA3` and `MK`
    are taken from the entry (`LP2` must be present);
  * with recovery answers (lines 778-804): `LRA = L ++ answers`,
    `LRA3 = scrypt(LRA, SNRP3)`, `oldLP2 = decrypt(ELP2, LRA3)`,
    `MK = decrypt(EMK, oldLP2)`, both errors propagating raw;
  * the new password yields `LP = L ++ newP`,
    `LP1 = scrypt(LP, SNRP1)`, `LP2 = scrypt(LP, SNRP2)`
    (lines 810-833);
  * `ABC_LoginUpdateLoginPackageJSONString` (lines 842, 964-1048)
    rebuilds the package: `EMK = Encrypt(MK, newLP2)`,
    `ESyncKey = Encrypt(szRepoAcctKey, L4)`, and when an `LRA3` is at
    hand `ELP2 = Encrypt(newLP2, LRA3)`, `ELRA3 = Encrypt(LRA3, newLP2)`
    (otherwise the envelopes already on disk are kept).
The function returns the new on-disk account together with the cache
entry as the call leaves it. -/
def changePassword (acct : Account) (pw : Option Bytes) (answers : Bytes)
    (newPw : Bytes) : Except CC (Account × CacheEntry) :=
  match cacheKeys acct pw with
  | .error c => .error c
  | .ok e =>
    let branch : Except CC (Bytes × Option Bytes × Bytes) :=
      match pw with
      | some _ =>
        match e.LP2c, e.MKc with
        | some lp2, some mk => .ok (lp2, e.LRA3c, mk)
        | _, _ => .error CC.Error
      | none =>
        let lra := acct.L ++ answers
        let lra3 := scrypt lra acct.carePkg.snrp3
        match acct.loginPkg.ELP2 with
        | none => .error CC.JSONError
        | some elp2 =>
          match cryptoDecrypt elp2 lra3 with
          | .error c => .error c
          | .ok oldLP2 =>
            match cryptoDecrypt acct.loginPkg.EMK oldLP2 with
            | .error c => .error c
            | .ok mk => .ok (oldLP2, some lra3, mk)
    match branch with
    | .error c => .error c
    | .ok (_, lra3opt, mk) =>
      let newLP := acct.L ++ newPw
      let newLP2 := scrypt newLP acct.carePkg.snrp2
      let newEMK := cryptoEncrypt mk newLP2
      let newESync := cryptoEncrypt (e.syncKey.getD []) e.L4c
      let rec2 : Option EnvJ × Option EnvJ :=
        match lra3opt with
        | some lra3 =>
            (some (cryptoEncrypt newLP2 lra3), some (cryptoEncrypt lra3 newLP2))
        | none => (acct.loginPkg.ELP2, acct.loginPkg.ELRA3)
      .ok ({ acct with loginPkg := ⟨newEMK, newESync, rec2.1, rec2.2⟩ },
           { e with password := some newPw, MKc := some mk,
                    LP2c := some newLP2, LRA3c := lra3opt })

/-- A well-formed local account for user `L` with master key `mk`,
sync key plaintext `skp`, password `p` and optionally recovery answers
`recovery` — the state create (and setRecovery) leave on disk:
`EMK = Encrypt(mk, LP2)`, `ESyncKey = Encrypt(skp, L4)`, and when
recovery is configured `ELP2 = Encrypt(LP2, LRA3)`,
`ELRA3 = Encrypt(LRA3, LP2)`. -/
def mkAccount (L mk skp p : Bytes) (s2 s3 s4 : SNRP)
    (recovery : Option Bytes) : Account :=
  let lp2 := scrypt (L ++ p) s2
  { L := L
  , carePkg := ⟨none, s2, s3, s4⟩
  , loginPkg :=
    { EMK := cryptoEncrypt mk lp2
    , ESyncKey := cryptoEncrypt skp (scrypt L s4)
    , ELP2 := recovery.map (fun a => cryptoEncrypt lp2 (scrypt (L ++ a) s3))
    , ELRA3 := recovery.map (fun a => cryptoEncrypt (scrypt (L ++ a) s3) lp2) } }

/-- The MK a local sign-in with password `pw` leaves in the cache
(server unreachable, so the fetch is ignored). -/
def signInMKOf (acct : Account) (pw : Bytes) : Except CC (Option Bytes) :=
  match signInLocal acct pw (.error CC.ServerError) with
  | .ok e => .ok e.MKc
  | .error c => .error c

/-- C2: a successful `changePassword` — via the old password or via
recovery answers — leaves the master key alone: the cache entry and the
rebuilt LoginPackage afterwards hold exactly the `mk` wrapped before
the call (only the wrapping key `LP2` is re-derived), and a subsequent
sign-in with the new password recovers that original `mk`. -/
theorem c2_change_password_preserves_mk (L mk skp p p' a : Bytes)
    (s2 s3 s4 : SNRP) (recovery : Option Bytes) :
    ((changePassword (mkAccount L mk skp p s2 s3 s4 recovery) (some p) [] p').map
        (fun pr => pr.2.MKc) = .ok (some mk) ∧
     (changePassword (mkAccount L mk skp p s2 s3 s4 recovery) (some p) [] p').map
        (fun pr => cryptoDecrypt pr.1.loginPkg.EMK (scrypt (L ++ p') s2))
        = .ok (.ok mk) ∧
     (changePassword (mkAccount L mk skp p s2 s3 s4 recovery) (some p) [] p').bind
        (fun pr => signInMKOf pr.1 p') = .ok (some mk)) ∧
    (recovery = some a →
     ((changePassword (mkAccount L mk skp p s2 s3 s4 recovery) none a p').map
        (fun pr => pr.2.MKc) = .ok (some mk) ∧
      (changePassword (mkAccount L mk skp p s2 s3 s4 recovery) none a p').map
        (fun pr => cryptoDecrypt pr.1.loginPkg.EMK (scrypt (L ++ p') s2))
        = .ok (.ok mk) ∧
      (changePassword (mkAccount L mk skp p s2 s3 s4 recovery) none a p').bind
        (fun pr => signInMKOf pr.1 p') = .ok (some mk))) := by
  constructor
  · cases recovery with
    | none =>
        refine ⟨?_, ?_, ?_⟩ <;>
          simp [changePassword, cacheKeys, mkAccount, cryptoDecrypt,
            cryptoEncrypt, signInMKOf, signInLocal, Except.map, Except.bind]
    | some b =>
        refine ⟨?_, ?_, ?_⟩ <;>
          simp [changePassword, cacheKeys, mkAccount, cryptoDecrypt,
            cryptoEncrypt, signInMKOf, signInLocal, Except.map, Except.bind]
  · rintro rfl
    refine ⟨?_, ?_, ?_⟩ <;>
      simp [changePassword, cacheKeys, mkAccount, cryptoDecrypt,
        cryptoEncrypt, signInMKOf, signInLocal, Except.map, Except.bind]

/-- C2 witness at a concrete account with recovery configured: both the
old-password route and the recovery-answers route preserve the cached
master key. -/
theorem c2_witness :
    (changePassword
        (mkAccount (strBytes "alice") [1, 2] [3] (strBytes "old")
          ⟨[2], 2, 1, 1⟩ ⟨[3], 2, 1, 1⟩ ⟨[4], 2, 1, 1⟩ (some (strBytes "A1")))
        (some (strBytes "old")) [] (strBytes "new")).map
      (fun pr => pr.2.MKc) = .ok (some [1, 2]) ∧
    (changePassword
        (mkAccount (strBytes "alice") [1, 2] [3] (strBytes "old")
          ⟨[2], 2, 1, 1⟩ ⟨[3], 2, 1, 1⟩ ⟨[4], 2, 1, 1⟩ (some (strBytes "A1")))
        none (strBytes "A1") (strBytes "new")).bind
      (fun pr => signInMKOf pr.1 (strBytes "new")) = .ok (some [1, 2]) := by
  have h := c2_change_password_preserves_mk (strBytes "alice") [1, 2] [3]
    (strBytes "old") (strBytes "new") (strBytes "A1")
    ⟨[2], 2, 1, 1⟩ ⟨[3], 2, 1, 1⟩ ⟨[4], 2, 1, 1⟩ (some (strBytes "A1"))
  exact ⟨h.1.1, (h.2 rfl).2.2⟩

/-- The key cache reduced to what C10 is about: the usernames of the
cached `tAccountKeys` entries (`gaAccountKeysCacheArray`). -/
abbrev KeyCache := List String

/-- The outcomes of the sub-calls `ABC_LoginSignIn` makes, one flag per
failure point (the concrete error codes do not matter for the cache;
representative ones are used below). -/
structure SignInEnv where
  dirExists : Bool
  fetchOk : Bool
  cacheKeys1Ok : Bool
  fetchPkgRes : CC
  checkCredOk : Bool
  infoOk : Bool
  deriving DecidableEq, Repr

/-- Embedding of the cache effects of `ABC_LoginSignIn` (ABC_Login.c
lines 140-199):
  * line 148: `ABC_LoginClearKeyCache(NULL)` frees every entry of the
    whole cache, whatever was in it;
  * no local slot (lines 150-156): `ABC_LoginFetch` caches `u` on
    success and clears the whole cache on its own failure (line 445);
  * local slot (lines 158-189): `ABC_LoginCacheKeys(u, ...)` adds the
    entry for `u` (line 1515, before any failing decrypt), a
    `BadPassword` from the fresh-package fetch is terminal, and
    `ABC_LoginCheckCredentials` re-runs `cacheKeys` for `u`;
  * line 192: the update-info call runs under `ABC_CHECK_RET`;
  * lines 194-197: on any non-Ok result the whole cache is cleared
    again before returning. -/
def signInCacheSim (u : String) (env : SignInEnv) (_c0 : KeyCache) :
    CC × KeyCache :=
  let c1 : KeyCache := []
  let core : CC × KeyCache :=
    if env.dirExists then
      if env.cacheKeys1Ok then
        if env.fetchPkgRes = CC.BadPassword then (CC.BadPassword, u :: c1)
        else if env.checkCredOk then (CC.Ok, u :: c1)
        else (CC.BadPassword, u :: c1)
      else (CC.BadPassword, u :: c1)
    else
      if env.fetchOk then
        if env.checkCredOk then (CC.Ok, u :: c1) else (CC.BadPassword, u :: c1)
      else (CC.ServerError, c1)
  let afterInfo : CC × KeyCache :=
    if core.1 = CC.Ok then
      (if env.infoOk then CC.Ok else CC.ServerError, core.2)
    else core
  if afterInfo.1 = CC.Ok then afterInfo else (afterInfo.1, [])

/-- C10: `ABC_LoginSignIn` clears the whole key cache up front and
again on any failure: its result never depends on the prior cache
contents, after any call every remaining cached entry belongs to the
signing-in user, and a failed call leaves the cache empty. -/
theorem c10_sign_in_evicts_other_users (u : String) (env : SignInEnv)
    (c0 : KeyCache) :
    (signInCacheSim u env c0).2.all (fun v => v == u) = true ∧
    signInCacheSim u env c0 = signInCacheSim u env [] ∧
    ((signInCacheSim u env c0).1 ≠ CC.Ok → (signInCacheSim u env c0).2 = []) := by
  refine ⟨?_, rfl, ?_⟩ <;>
  · rcases env with ⟨d, f, ck, fr, cr, io⟩
    cases d <;> cases f <;> cases ck <;> cases cr <;> cases io <;>
      by_cases h : fr = CC.BadPassword <;>
      simp_all [signInCacheSim]

/-- C10 witness: a failed fetch-path sign-in for alice evicts bob's
cached entry and leaves the cache empty. -/
theorem c10_witness :
    (signInCacheSim "alice" ⟨false, false, true, CC.Ok, true, true⟩ ["bob"]).2
      = [] := by
  exact (c10_sign_in_evicts_other_users "alice"
    ⟨false, false, true, CC.Ok, true, true⟩ ["bob"]).2.2 (by decide)

end Airbitz
